import Mathlib

/-!
Shallow embedding of the decision engine of the Car_Chooser repository
(`streamlit_app.py`): the incentive resolver (`calculate_incentive`), the
TCO calculator (`calculate_tco`), the scoring engine (`score_vehicle`),
the hard-constraint filter (`filter_vehicles`) and the powertrain advisor
(`recommend_powertrain`), together with theorems settling the spec claims.

Conventions of the embedding:
* Python floats are modelled as exact rationals (`ℚ`); Python ints as `ℤ`.
* A Python dict read `d.get(key, default)` on a vehicle record is modelled by
  an `Option`-typed structure field together with `Option.getD`.
* Python `round(x, 1)` (round half to even) is modelled by `pyRound1`.
* Python string `s.startswith(p)` is modelled by `pyStartsWith` (character
  list prefix test).
* A Python expression that can raise `ZeroDivisionError` is modelled in
  `Except Unit`: `pydiv` mirrors the `/` operator, returning `Except.error ()`
  exactly when the denominator is zero.
-/

/-- Python `round(x, 1)`: round `x` to one decimal digit, ties to even
(Python's banker's rounding, applied here to the exact rational value). -/
def pyRound1 (x : ℚ) : ℚ :=
  ((if 10 * x - (⌊10 * x⌋ : ℚ) < 1 / 2 then ⌊10 * x⌋
    else if 1 / 2 < 10 * x - (⌊10 * x⌋ : ℚ) then ⌊10 * x⌋ + 1
    else if ⌊10 * x⌋ % 2 = 0 then ⌊10 * x⌋ else ⌊10 * x⌋ + 1 : ℤ) : ℚ) / 10

/-- Is the first character list a prefix of the second? -/
def listPrefixOf : List Char → List Char → Bool
  | [], _ => true
  | _ :: _, [] => false
  | p :: ps, c :: cs => if p = c then listPrefixOf ps cs else false

/-- Python `s.startswith(pre)`. -/
def pyStartsWith (s pre : String) : Bool :=
  listPrefixOf pre.data s.data

/-- Python `a / b` on floats, which raises `ZeroDivisionError` when `b == 0`. -/
def pydiv (a b : ℚ) : Except Unit ℚ :=
  if b = 0 then Except.error () else Except.ok (a / b)

/-- The `Region` enum of the source (`class Region(Enum)`). -/
inductive Region where
  | usa_federal | usa_california | usa_colorado | usa_new_jersey
  | usa_new_york | usa_texas
  | canada_federal | canada_quebec | canada_bc | canada_ontario
  | uk | germany | france | netherlands | norway | australia | portugal
deriving DecidableEq

/-- The `.value` string of each `Region` enum member. -/
def Region.value : Region → String
  | .usa_federal => "usa_federal"
  | .usa_california => "usa_california"
  | .usa_colorado => "usa_colorado"
  | .usa_new_jersey => "usa_new_jersey"
  | .usa_new_york => "usa_new_york"
  | .usa_texas => "usa_texas"
  | .canada_federal => "canada_federal"
  | .canada_quebec => "canada_quebec"
  | .canada_bc => "canada_bc"
  | .canada_ontario => "canada_ontario"
  | .uk => "uk"
  | .germany => "germany"
  | .france => "france"
  | .netherlands => "netherlands"
  | .norway => "norway"
  | .australia => "australia"
  | .portugal => "portugal"

/-- The `VehicleType` enum of the source. -/
inductive VehicleType where
  | sedan | suv | hatchback | truck | crossover | wagon | minivan
deriving DecidableEq

/-- The `.value` string of each `VehicleType` enum member. -/
def VehicleType.value : VehicleType → String
  | .sedan => "sedan"
  | .suv => "suv"
  | .hatchback => "hatchback"
  | .truck => "truck"
  | .crossover => "crossover"
  | .wagon => "wagon"
  | .minivan => "minivan"

/-- A vehicle record (`vehicle_data : Dict`), restricted to the keys the
decision engine reads.  Every field is optional, mirroring `dict.get`;
absent keys are `none` and are resolved by the per-call-site defaults of
the source. -/
structure Vehicle where
  name : Option String := none
  brand : Option String := none
  powertrain : Option String := none
  vehicle_type : Option String := none
  base_price : Option ℚ := none
  range_km : Option ℚ := none
  dc_charging_kw : Option ℚ := none
  kwh_per_100km : Option ℚ := none
  l_per_100km : Option ℚ := none
  zero_to_100_kmh : Option ℚ := none
  safety_rating_ncap : Option ℚ := none
  reliability_score : Option ℚ := none
  cargo_liters : Option ℚ := none
  seats : Option ℚ := none
  awd : Option Bool := none
  towing_capacity_kg : Option ℚ := none
  autopilot_available : Option Bool := none
  ota_updates : Option Bool := none
  heat_pump : Option Bool := none
  v2l_capable : Option Bool := none
  v2h_capable : Option Bool := none
  made_in_north_america : Option Bool := none
deriving DecidableEq

/-- The `UserPreferences` dataclass, with the source's field defaults. -/
structure UserPreferences where
  daily_commute_km : ℚ := 50
  annual_km : ℚ := 20000
  long_trips_frequency : String := "rarely"
  typical_long_trip_km : ℚ := 400
  home_charging_available : Bool := true
  home_charging_type : String := "level2"
  work_charging_available : Bool := false
  public_charging_reliance : String := "low"
  max_budget : ℚ := 50000
  min_budget : ℚ := 0
  consider_incentives : Bool := true
  region : Region := Region.usa_federal
  ownership_years : ℤ := 5
  expected_resale_percent : ℚ := 50
  electricity_cost_kwh : ℚ := 0.15
  gas_cost_liter : ℚ := 1.50
  vehicle_types : List VehicleType := [VehicleType.sedan, VehicleType.suv]
  min_seats : ℤ := 5
  min_cargo_liters : ℤ := 300
  needs_awd : Bool := false
  needs_towing : Bool := false
  min_towing_kg : ℤ := 0
  range_priority : ℤ := 3
  charging_speed_priority : ℤ := 3
  acceleration_priority : ℤ := 2
  efficiency_priority : ℤ := 3
  tech_features_priority : ℤ := 3
  safety_priority : ℤ := 4
  reliability_priority : ℤ := 4
  cargo_priority : ℤ := 3
  zero_emissions_priority : ℤ := 3
  preferred_brands : List String := []
  excluded_brands : List String := []

/-- The `TCOResult` dataclass. -/
structure TCOResult where
  vehicle_name : String
  purchase_price : ℚ
  incentives_total : ℚ
  net_purchase_price : ℚ
  annual_fuel_cost : ℚ
  annual_maintenance_cost : ℚ
  annual_insurance_cost : ℚ
  annual_registration_cost : ℚ
  total_fuel_cost : ℚ
  total_maintenance_cost : ℚ
  total_insurance_cost : ℚ
  total_registration_cost : ℚ
  depreciation : ℚ
  total_cost_of_ownership : ℚ
  cost_per_km : ℚ
  cost_per_year : ℚ
  savings_vs_avg_ice : ℚ := 0
deriving DecidableEq

/-- One row of the incentive table (`{"ev": ..., "phev": ..., "name": ...}`). -/
structure IncentiveRow where
  ev : ℚ
  phev : ℚ
  name : String := ""
deriving DecidableEq

/-- `get_incentives_data()`: the static incentive dict, modelled as an
association list from region-code string to row; `dict.get(region, default)`
is `(·.lookup region).getD default`. -/
def get_incentives_data : List (String × IncentiveRow) :=
  [("usa_federal", { ev := 7500, phev := 3750, name := "Federal Tax Credit" }),
   ("usa_california", { ev := 9500, phev := 5750, name := "Federal + CA Rebate" }),
   ("usa_colorado", { ev := 12500, phev := 6250, name := "Federal + CO Credit" }),
   ("usa_new_jersey", { ev := 11500, phev := 3750, name := "Federal + NJ Rebate" }),
   ("usa_new_york", { ev := 10000, phev := 4250, name := "Federal + NY Rebate" }),
   ("usa_texas", { ev := 10000, phev := 6250, name := "Federal + TX Rebate" }),
   ("canada_federal", { ev := 5000, phev := 2500, name := "iZEV Federal" }),
   ("canada_quebec", { ev := 12000, phev := 7500, name := "Federal + QC Rebate" }),
   ("canada_bc", { ev := 9000, phev := 4500, name := "Federal + BC Rebate" }),
   ("canada_ontario", { ev := 5000, phev := 2500, name := "Federal Only" }),
   ("uk", { ev := 1500, phev := 0, name := "Plug-in Grant (GBP)" }),
   ("germany", { ev := 4500, phev := 0, name := "Umweltbonus (EUR)" }),
   ("france", { ev := 5000, phev := 0, name := "Bonus Écologique (EUR)" }),
   ("netherlands", { ev := 2950, phev := 0, name := "SEPP Subsidy (EUR)" }),
   ("norway", { ev := 0, phev := 0, name := "VAT Exempt (25% savings)" }),
   ("australia", { ev := 3000, phev := 0, name := "State Rebates (AUD)" })]

/-- `calculate_incentive(vehicle_data, region)`.  The two `return` sites of
the source evaluate the same powertrain-selected table amount, bound here
once as `base`. -/
def calculate_incentive (vehicle_data : Vehicle) (region : String) : ℚ :=
  let region_data := (get_incentives_data.lookup region).getD { ev := 0, phev := 0 }
  let powertrain := vehicle_data.powertrain.getD "EV"
  let price := vehicle_data.base_price.getD 0
  let base := if powertrain = "EV" then region_data.ev else region_data.phev
  if pyStartsWith region "usa" then
    let vehicle_type := vehicle_data.vehicle_type.getD "sedan"
    if (vehicle_type = "sedan" ∨ vehicle_type = "hatchback") ∧ price > 55000 then 0
    else if ¬(vehicle_type = "sedan" ∨ vehicle_type = "hatchback") ∧ price > 80000 then 0
    else if vehicle_data.made_in_north_america.getD false = false then base * 0.5
    else base
  else base

/-- The `region_insurance_map` dict of `calculate_tco`, as an association
list; its `.get(region_key, 1500)` fallback premium is applied at the call
site via `getD 1500`. -/
def region_insurance_map : List (String × ℚ) :=
  [("usa_federal", 1800),
   ("usa_california", 2000),
   ("usa_colorado", 1700),
   ("usa_new_jersey", 2100),
   ("usa_new_york", 2200),
   ("usa_texas", 1600),
   ("canada_federal", 1400),
   ("canada_quebec", 1200),
   ("canada_bc", 1300),
   ("canada_ontario", 1350),
   ("uk", 900),
   ("germany", 800),
   ("france", 850),
   ("netherlands", 950),
   ("norway", 1000),
   ("australia", 1100),
   ("portugal", 700)]

/-- `calculate_tco(vehicle_data, preferences)`.  The two Python divisions
whose denominators are not fixed nonzero constants — `cost_per_km` (guarded
by `annual_km > 0` only) and `cost_per_year` — go through `pydiv`, so the
result is `Except.error ()` exactly when the Python code raises
`ZeroDivisionError`. -/
def calculate_tco (vehicle_data : Vehicle) (preferences : UserPreferences) :
    Except Unit TCOResult :=
  let incentive := calculate_incentive vehicle_data preferences.region.value
  let purchase_price := vehicle_data.base_price.getD 0 + 1500
  let net_purchase_price := purchase_price - incentive
  let annual_km := preferences.annual_km
  let powertrain := vehicle_data.powertrain.getD "EV"
  let annual_fuel_cost :=
    if powertrain = "EV" then
      let kwh_per_100km := vehicle_data.kwh_per_100km.getD 18
      let annual_kwh := (kwh_per_100km / 100) * annual_km
      annual_kwh * preferences.electricity_cost_kwh
    else
      let electric_range := vehicle_data.range_km.getD 50
      let daily_km := preferences.daily_commute_km
      let electric_ratio : ℚ :=
        if electric_range ≥ daily_km then 0.70
        else if electric_range ≥ daily_km * 0.5 then 0.50
        else 0.30
      let electric_km := annual_km * electric_ratio
      let gas_km := annual_km * (1 - electric_ratio)
      let kwh_per_100km := vehicle_data.kwh_per_100km.getD 18
      let l_per_100km := vehicle_data.l_per_100km.getD 6
      let electric_cost := (kwh_per_100km / 100) * electric_km * preferences.electricity_cost_kwh
      let gas_cost := (l_per_100km / 100) * gas_km * preferences.gas_cost_liter
      electric_cost + gas_cost
  let annual_maintenance :=
    if powertrain = "EV" then annual_km * 0.03 else annual_km * 0.05
  let region_key := preferences.region.value
  let base_insurance := (region_insurance_map.lookup region_key).getD 1500
  let price_factor := (vehicle_data.base_price.getD 40000 / 10000) * 100
  let annual_insurance := base_insurance + price_factor
  let annual_registration : ℚ := if powertrain = "EV" then 150 else 200
  let years : ℚ := (preferences.ownership_years : ℚ)
  let total_fuel := annual_fuel_cost * years
  let total_maintenance := annual_maintenance * years
  let total_insurance := annual_insurance * years
  let total_registration := annual_registration * years
  let resale_percent : ℚ := if powertrain = "EV" then 45 else 40
  let resale_value := net_purchase_price * (resale_percent / 100)
  let depreciation := net_purchase_price - resale_value
  let total_tco :=
    net_purchase_price - resale_value +
    total_fuel + total_maintenance + total_insurance + total_registration
  let ice_annual_fuel := (9 / 100) * annual_km * preferences.gas_cost_liter
  let ice_annual_maintenance := annual_km * 0.07
  let ice_total :=
    40000 * 0.5 +
    ice_annual_fuel * years +
    ice_annual_maintenance * years +
    1500 * years +
    150 * years
  let savings := ice_total - total_tco
  let cost_per_km_e : Except Unit ℚ :=
    if annual_km > 0 then pydiv total_tco (annual_km * years) else Except.ok 0
  let cost_per_year_e : Except Unit ℚ := pydiv total_tco years
  match cost_per_km_e, cost_per_year_e with
  | Except.ok ck, Except.ok cy =>
      Except.ok {
        vehicle_name := vehicle_data.name.getD "Unknown",
        purchase_price := purchase_price,
        incentives_total := incentive,
        net_purchase_price := net_purchase_price,
        annual_fuel_cost := annual_fuel_cost,
        annual_maintenance_cost := annual_maintenance,
        annual_insurance_cost := annual_insurance,
        annual_registration_cost := annual_registration,
        total_fuel_cost := total_fuel,
        total_maintenance_cost := total_maintenance,
        total_insurance_cost := total_insurance,
        total_registration_cost := total_registration,
        depreciation := depreciation,
        total_cost_of_ownership := total_tco,
        cost_per_km := ck,
        cost_per_year := cy,
        savings_vs_avg_ice := savings }
  | Except.error e, _ => Except.error e
  | _, Except.error e => Except.error e

/-- Python membership test `opt in strs` where `opt` is `d.get(key)` (so
possibly `None`, which is never a member of a list of strings). -/
def optMem (b : Option String) (strs : List String) : Bool :=
  match b with
  | some s => strs.contains s
  | none => false

/-- The `range_score` ladder of `score_vehicle`. -/
def range_score (vehicle_data : Vehicle) (preferences : UserPreferences) : ℚ :=
  let daily_need := preferences.daily_commute_km
  let vehicle_range := vehicle_data.range_km.getD 0
  if vehicle_range ≥ daily_need * 5 then 10
  else if vehicle_range ≥ daily_need * 3 then 8
  else if vehicle_range ≥ daily_need * 2 then 6
  else if vehicle_range ≥ daily_need * 1.5 then 4
  else 2

/-- The `charging_score` ladder of `score_vehicle`. -/
def charging_score (vehicle_data : Vehicle) : ℚ :=
  let dc_kw := vehicle_data.dc_charging_kw.getD 0
  if dc_kw ≥ 250 then 10
  else if dc_kw ≥ 200 then 8
  else if dc_kw ≥ 150 then 6
  else if dc_kw ≥ 100 then 4
  else 2

/-- The `eff_score` ladder of `score_vehicle`. -/
def eff_score (vehicle_data : Vehicle) : ℚ :=
  let efficiency := vehicle_data.kwh_per_100km.getD 20
  if efficiency ≤ 14 then 10
  else if efficiency ≤ 16 then 8
  else if efficiency ≤ 18 then 6
  else if efficiency ≤ 20 then 4
  else 2

/-- The `accel_score` ladder of `score_vehicle`. -/
def accel_score (vehicle_data : Vehicle) : ℚ :=
  let zero_to_100 := vehicle_data.zero_to_100_kmh.getD 8
  if zero_to_100 ≤ 3.5 then 10
  else if zero_to_100 ≤ 4.5 then 8
  else if zero_to_100 ≤ 5.5 then 6
  else if zero_to_100 ≤ 7.0 then 4
  else 2

/-- The `safety_score` of `score_vehicle`: NCAP rating times two. -/
def safety_score (vehicle_data : Vehicle) : ℚ :=
  vehicle_data.safety_rating_ncap.getD 5 * 2

/-- The `reliability_score` of `score_vehicle`: reliability rating times two. -/
def reliability_score_x2 (vehicle_data : Vehicle) : ℚ :=
  vehicle_data.reliability_score.getD 4 * 2

/-- The `cargo_score` ladder of `score_vehicle`. -/
def cargo_score (vehicle_data : Vehicle) (preferences : UserPreferences) : ℚ :=
  let cargo := vehicle_data.cargo_liters.getD 400
  if cargo ≥ (preferences.min_cargo_liters : ℚ) * 2 then 10
  else if cargo ≥ (preferences.min_cargo_liters : ℚ) * 1.5 then 8
  else if cargo ≥ (preferences.min_cargo_liters : ℚ) then 6
  else 4

/-- The `tech_score` of `score_vehicle`: additive feature points, capped at 10.
A Python truthiness test `vehicle_data.get(flag)` is `false` for an absent key. -/
def tech_score (vehicle_data : Vehicle) : ℚ :=
  let pts : ℚ :=
    (if vehicle_data.autopilot_available.getD false then 3 else 0) +
    (if vehicle_data.ota_updates.getD false then 2 else 0) +
    (if vehicle_data.heat_pump.getD false then 2 else 0) +
    (if vehicle_data.v2l_capable.getD false then 2 else 0) +
    (if vehicle_data.v2h_capable.getD false then 1 else 0)
  min pts 10

/-- The dict returned by `score_vehicle`: final score, the `scores` dict in
insertion order, and the brand bonus. -/
structure ScoreOutput where
  final_score : ℚ
  category_scores : List (String × ℚ)
  brand_bonus : ℚ
deriving DecidableEq

/-- `score_vehicle(vehicle_data, preferences)`.  `total_score` and
`max_possible` are the source's running accumulators written out as the sums
they reach after the eight category blocks, in source order. -/
def score_vehicle (vehicle_data : Vehicle) (preferences : UserPreferences) :
    ScoreOutput :=
  let total_score : ℚ :=
    range_score vehicle_data preferences * (preferences.range_priority : ℚ) +
    charging_score vehicle_data * (preferences.charging_speed_priority : ℚ) +
    eff_score vehicle_data * (preferences.efficiency_priority : ℚ) +
    accel_score vehicle_data * (preferences.acceleration_priority : ℚ) +
    safety_score vehicle_data * (preferences.safety_priority : ℚ) +
    reliability_score_x2 vehicle_data * (preferences.reliability_priority : ℚ) +
    cargo_score vehicle_data preferences * (preferences.cargo_priority : ℚ) +
    tech_score vehicle_data * (preferences.tech_features_priority : ℚ)
  let max_possible : ℤ :=
    preferences.range_priority * 10 +
    preferences.charging_speed_priority * 10 +
    preferences.efficiency_priority * 10 +
    preferences.acceleration_priority * 10 +
    preferences.safety_priority * 10 +
    preferences.reliability_priority * 10 +
    preferences.cargo_priority * 10 +
    preferences.tech_features_priority * 10
  let brand_bonus : ℚ :=
    if preferences.preferred_brands ≠ [] ∧
        optMem vehicle_data.brand preferences.preferred_brands then 5 else 0
  let final_score : ℚ :=
    if max_possible > 0 then total_score / (max_possible : ℚ) * 100 else 0
  let final_clamped := min (final_score + brand_bonus) 100
  { final_score := pyRound1 final_clamped,
    category_scores :=
      [("Range", range_score vehicle_data preferences),
       ("Charging", charging_score vehicle_data),
       ("Efficiency", eff_score vehicle_data),
       ("Performance", accel_score vehicle_data),
       ("Safety", safety_score vehicle_data),
       ("Reliability", reliability_score_x2 vehicle_data),
       ("Cargo", cargo_score vehicle_data preferences),
       ("Tech", tech_score vehicle_data)],
    brand_bonus := brand_bonus }

/-- The per-vehicle keep/drop decision of the `filter_vehicles` loop body:
`false` exactly when one of the seven `continue` conditions fires, in source
order. -/
def vehicle_kept (preferences : UserPreferences) (v : Vehicle) : Bool :=
  let vehicle_type_values := preferences.vehicle_types.map VehicleType.value
  if v.base_price.getD 0 > preferences.max_budget * 1.1 then false
  else if v.base_price.getD 0 < preferences.min_budget then false
  else if ¬ optMem v.vehicle_type vehicle_type_values then false
  else if v.seats.getD 5 < (preferences.min_seats : ℚ) then false
  else if preferences.needs_awd ∧ v.awd.getD false = false then false
  else if preferences.needs_towing ∧
      v.towing_capacity_kg.getD 0 < (preferences.min_towing_kg : ℚ) then false
  else if optMem v.brand preferences.excluded_brands then false
  else true

/-- `filter_vehicles(vehicles, preferences)`: the accumulating loop of the
source, appending each vehicle that survives all `continue` checks. -/
def filter_vehicles (vehicles : List Vehicle) (preferences : UserPreferences) :
    List Vehicle :=
  match vehicles with
  | [] => []
  | v :: rest =>
      if vehicle_kept preferences v then v :: filter_vehicles rest preferences
      else filter_vehicles rest preferences

/-- The dict returned by `recommend_powertrain`. -/
structure PowertrainAdvice where
  recommendation : String
  confidence : String
  ev_score : ℤ
  phev_score : ℤ
  ev_percentage : ℚ
  phev_percentage : ℚ
  reasons_ev : List String
  reasons_phev : List String
deriving DecidableEq

/-- `recommend_powertrain(preferences)`.  Each of the five `if` blocks of the
source contributes a tuple (EV points, PHEV points, EV reasons, PHEV reasons);
the running `ev_score`/`phev_score` accumulators and reason lists are their
sums/concatenations in source order. -/
def recommend_powertrain (preferences : UserPreferences) : PowertrainAdvice :=
  let commute_rule : ℤ × ℤ × List String × List String :=
    if preferences.daily_commute_km ≤ 50 then
      (3, 2, ["Short commute easily covered by EV"], [])
    else if preferences.daily_commute_km ≤ 100 then (2, 2, [], [])
    else (0, 3, [], ["Long commute benefits from PHEV flexibility"])
  let trips_rule : ℤ × ℤ × List String × List String :=
    if preferences.long_trips_frequency = "never" then
      (3, 0, ["No long trips needed"], [])
    else if preferences.long_trips_frequency = "rarely" then (2, 2, [], [])
    else if preferences.long_trips_frequency = "monthly" then
      (0, 3, [], ["Regular long trips easier with PHEV"])
    else (0, 4, [], ["Frequent long trips - PHEV recommended"])
  let home_rule : ℤ × ℤ × List String × List String :=
    if preferences.home_charging_available then
      if preferences.home_charging_type = "level2" then
        (4, 0, ["Level 2 home charging available"], [])
      else (2, 1, [], [])
    else (0, 4, [], ["No home charging - PHEV more flexible"])
  let work_rule : ℤ × ℤ × List String × List String :=
    if preferences.work_charging_available then
      (2, 0, ["Work charging available"], [])
    else (0, 0, [], [])
  let emissions_rule : ℤ × ℤ × List String × List String :=
    if preferences.zero_emissions_priority ≥ 4 then
      (3, 0, ["Strong preference for zero emissions"], [])
    else if preferences.zero_emissions_priority ≤ 2 then (0, 2, [], [])
    else (0, 0, [], [])
  let ev_score : ℤ :=
    commute_rule.1 + trips_rule.1 + home_rule.1 + work_rule.1 + emissions_rule.1
  let phev_score : ℤ :=
    commute_rule.2.1 + trips_rule.2.1 + home_rule.2.1 + work_rule.2.1 +
    emissions_rule.2.1
  let reasons_ev : List String :=
    commute_rule.2.2.1 ++ trips_rule.2.2.1 ++ home_rule.2.2.1 ++
    work_rule.2.2.1 ++ emissions_rule.2.2.1
  let reasons_phev : List String :=
    commute_rule.2.2.2 ++ trips_rule.2.2.2 ++ home_rule.2.2.2 ++
    work_rule.2.2.2 ++ emissions_rule.2.2.2
  let total : ℤ := ev_score + phev_score
  let ev_pct : ℚ :=
    if total > 0 then pyRound1 ((ev_score : ℚ) / (total : ℚ) * 100) else 50
  let phev_pct : ℚ :=
    if total > 0 then pyRound1 ((phev_score : ℚ) / (total : ℚ) * 100) else 50
  let rc : String × String :=
    if ev_score > phev_score + 3 then ("EV", "High")
    else if phev_score > ev_score + 3 then ("PHEV", "High")
    else if ev_score > phev_score then ("EV", "Medium")
    else if phev_score > ev_score then ("PHEV", "Medium")
    else ("Either", "Low")
  { recommendation := rc.1,
    confidence := rc.2,
    ev_score := ev_score,
    phev_score := phev_score,
    ev_percentage := ev_pct,
    phev_percentage := phev_pct,
    reasons_ev := reasons_ev,
    reasons_phev := reasons_phev }

/-- The `tesla_model_3_sr` entry of the static vehicle database, restricted
to the fields the decision engine reads. -/
def tesla_model_3_sr : Vehicle :=
  { name := some "Tesla Model 3 Standard Range",
    brand := some "Tesla",
    powertrain := some "EV",
    vehicle_type := some "sedan",
    base_price := some 40240,
    range_km := some 438,
    dc_charging_kw := some 170,
    kwh_per_100km := some 13.7,
    zero_to_100_kmh := some 6.1,
    safety_rating_ncap := some 5,
    reliability_score := some 3.5,
    cargo_liters := some 561,
    seats := some 5,
    awd := some false,
    towing_capacity_kg := some 0,
    autopilot_available := some true,
    ota_updates := some true,
    heat_pump := some true,
    v2l_capable := some false,
    v2h_capable := some false,
    made_in_north_america := some true }

/-- Concrete preference snapshots used by the claim theorems below. -/
def prefs_california : UserPreferences :=
  { region := Region.usa_california, annual_km := 20000, electricity_cost_kwh := 0.15 }

/-- Preferences whose ownership horizon is zero years. -/
def prefs_zero_years : UserPreferences := { ownership_years := 0 }

/-- Preferences whose annual distance is zero. -/
def prefs_zero_km : UserPreferences := { annual_km := 0 }

/-- The §4.5 scenario: 75 km commute, rare long trips, level-2 home charging,
no work charging, zero-emissions priority 3. -/
def prefs_advisor_case : UserPreferences :=
  { daily_commute_km := 75, long_trips_frequency := "rarely",
    home_charging_available := true, home_charging_type := "level2",
    work_charging_available := false, zero_emissions_priority := 3 }

/-- A record with no manufacturing-origin flag at all. -/
def v_no_origin : Vehicle := { base_price := some 30000 }

/-- A sedan priced above the 55000 compact price ceiling. -/
def v_expensive_sedan : Vehicle :=
  { vehicle_type := some "sedan", base_price := some 60000 }

theorem pyRound1_nonneg (x : ℚ) (hx : 0 ≤ x) : 0 ≤ pyRound1 x := by
  unfold pyRound1
  have hfq : (0 : ℚ) ≤ (⌊10 * x⌋ : ℚ) := by
    exact_mod_cast Int.floor_nonneg.mpr (by linarith)
  split_ifs <;> refine div_nonneg (by push_cast; linarith) (by norm_num)

theorem pyRound1_le_hundred (x : ℚ) (hx : x ≤ 100) : pyRound1 x ≤ 100 := by
  unfold pyRound1
  have hfq : (⌊10 * x⌋ : ℚ) ≤ 10 * x := Int.floor_le _
  have hf1000 : ⌊10 * x⌋ ≤ 1000 := by
    have h := Int.floor_le_floor (α := ℚ) (show 10 * x ≤ 1000 by linarith)
    simpa using h
  have hf1000q : (⌊10 * x⌋ : ℚ) ≤ 1000 := by exact_mod_cast hf1000
  split_ifs with h1 h2 h3
  · rw [div_le_iff₀ (by norm_num : (0:ℚ) < 10)]; linarith
  · have hfi : ⌊10 * x⌋ < 1000 := by
      have : (⌊10 * x⌋ : ℚ) < 1000 := by linarith
      exact_mod_cast this
    have hfi' : (⌊10 * x⌋ : ℚ) + 1 ≤ 1000 := by exact_mod_cast hfi
    rw [div_le_iff₀ (by norm_num : (0:ℚ) < 10)]
    push_cast
    linarith
  · rw [div_le_iff₀ (by norm_num : (0:ℚ) < 10)]; linarith
  · have heq : 10 * x - (⌊10 * x⌋ : ℚ) = 1 / 2 :=
      le_antisymm (not_lt.mp h2) (not_lt.mp h1)
    have hfi : ⌊10 * x⌋ < 1000 := by
      have : (⌊10 * x⌋ : ℚ) < 1000 := by linarith
      exact_mod_cast this
    have hfi' : (⌊10 * x⌋ : ℚ) + 1 ≤ 1000 := by exact_mod_cast hfi
    rw [div_le_iff₀ (by norm_num : (0:ℚ) < 10)]
    push_cast
    linarith

/-- A successful association-list lookup returns one of the stored values. -/
theorem lookup_mem_values {β : Type} (k : String) (l : List (String × β)) (b : β)
    (h : l.lookup k = some b) : b ∈ l.map Prod.snd := by
  induction l with
  | nil => simp [List.lookup] at h
  | cons p t ih =>
    obtain ⟨a, c⟩ := p
    rw [List.lookup] at h
    cases hEq : (k == a) with
    | true => simp only [hEq] at h; injection h with h; subst h; simp
    | false => simp only [hEq] at h; simpa using Or.inr (by simpa using ih h)

/-- Every EV amount and every PHEV amount of the incentive table — and of the
off-table default row — is non-negative. -/
theorem incentive_row_nonneg (r : String) :
    0 ≤ ((get_incentives_data.lookup r).getD { ev := 0, phev := 0 }).ev ∧
    0 ≤ ((get_incentives_data.lookup r).getD { ev := 0, phev := 0 }).phev := by
  rcases hE : get_incentives_data.lookup r with _ | row
  · simp
  · have hm := lookup_mem_values r get_incentives_data row hE
    have hall : ∀ y ∈ get_incentives_data.map Prod.snd,
        (0:ℚ) ≤ y.ev ∧ (0:ℚ) ≤ y.phev := by decide
    simpa using hall row hm

/-- C4: for every vehicle record (including records missing optional fields)
and every region string, `calculate_incentive` returns a non-negative amount
(it is a total function of the embedding, so it never raises), and a missing
manufacturing-origin flag takes the halved branch: inside the `usa`-prefixed
region family the amount for a record with no flag is exactly half the amount
the same record would get with the flag set. -/
theorem calculate_incentive_nonneg_and_missing_origin_halves
    (v : Vehicle) (region : String) :
    0 ≤ calculate_incentive v region ∧
    (v.made_in_north_america = none → pyStartsWith region "usa" = true →
      calculate_incentive v region =
        calculate_incentive { v with made_in_north_america := some true } region / 2) := by
  obtain ⟨hev, hphev⟩ := incentive_row_nonneg region
  constructor
  · simp only [calculate_incentive]
    have hbase : (0:ℚ) ≤ (if v.powertrain.getD "EV" = "EV"
        then ((get_incentives_data.lookup region).getD { ev := 0, phev := 0 }).ev
        else ((get_incentives_data.lookup region).getD { ev := 0, phev := 0 }).phev) := by
      split_ifs <;> assumption
    split_ifs <;> linarith
  · intro hnone husa
    simp only [calculate_incentive, hnone, husa, Option.getD_none, Option.getD_some]
    split_ifs <;> first | contradiction | ring

/-- Witness for the C4 theorem: a record with price 30000 and no origin flag
in `usa_federal` gets a non-negative amount, namely half of what the same
record with the flag set would get. -/
theorem calculate_incentive_nonneg_and_missing_origin_halves_witness :
    0 ≤ calculate_incentive v_no_origin "usa_federal" ∧
    calculate_incentive v_no_origin "usa_federal" =
      calculate_incentive
        { v_no_origin with made_in_north_america := some true } "usa_federal" / 2 :=
  ⟨(calculate_incentive_nonneg_and_missing_origin_halves v_no_origin "usa_federal").1,
   (calculate_incentive_nonneg_and_missing_origin_halves v_no_origin "usa_federal").2
     rfl (by decide)⟩

/-- C5: inside the `usa`-prefixed region family, a sedan/hatchback priced
above 55000 gets exactly 0, any other body type priced above 80000 gets
exactly 0; outside that family the returned amount is just the
powertrain-selected table amount — the price cap never zeroes it. -/
theorem calculate_incentive_price_cap
    (v : Vehicle) (region : String) :
    (pyStartsWith region "usa" = true →
      (v.vehicle_type.getD "sedan" = "sedan" ∨ v.vehicle_type.getD "sedan" = "hatchback") →
      v.base_price.getD 0 > 55000 → calculate_incentive v region = 0) ∧
    (pyStartsWith region "usa" = true →
      ¬(v.vehicle_type.getD "sedan" = "sedan" ∨ v.vehicle_type.getD "sedan" = "hatchback") →
      v.base_price.getD 0 > 80000 → calculate_incentive v region = 0) ∧
    (pyStartsWith region "usa" = false →
      calculate_incentive v region =
        (if v.powertrain.getD "EV" = "EV"
          then ((get_incentives_data.lookup region).getD { ev := 0, phev := 0 }).ev
          else ((get_incentives_data.lookup region).getD { ev := 0, phev := 0 }).phev)) := by
  refine ⟨?_, ?_, ?_⟩
  · intro husa hcompact hprice
    simp only [calculate_incentive, husa]
    rw [if_pos trivial, if_pos ⟨hcompact, hprice⟩]
  · intro husa hother hprice
    simp only [calculate_incentive, husa]
    rw [if_pos trivial, if_neg (fun hc => hother hc.1), if_pos ⟨hother, hprice⟩]
  · intro husa
    simp only [calculate_incentive, husa]
    rw [if_neg (by simp)]

/-- Witness for the C5 theorem: a 60000 sedan in `usa_federal` gets 0. -/
theorem calculate_incentive_price_cap_witness :
    calculate_incentive v_expensive_sedan "usa_federal" = 0 :=
  (calculate_incentive_price_cap v_expensive_sedan "usa_federal").1
    (by decide) (Or.inl rfl) (by norm_num [v_expensive_sedan])

/-- C9: for the Tesla Model 3 Standard Range (base price 40240, consumption
13.7) with preferences in `usa_california`, 20000 km/year and electricity at
0.15, the incentive is the CA table EV entry 9500 (the `usa` price cap does
not zero a 40240 sedan, and the origin-compliant record is not halved), and
the TCO's annual energy cost is exactly (13.7/100)·20000·0.15 = 411. -/
theorem tesla_california_energy_and_incentive :
    calculate_incentive tesla_model_3_sr "usa_california" = 9500 ∧
    (calculate_tco tesla_model_3_sr prefs_california).map TCOResult.annual_fuel_cost =
      Except.ok 411 ∧
    (calculate_tco tesla_model_3_sr prefs_california).map TCOResult.incentives_total =
      Except.ok 9500 := by
  refine ⟨?_, ?_, ?_⟩ <;>
    norm_num +decide [calculate_tco, calculate_incentive, pyStartsWith,
      pydiv, prefs_california, tesla_model_3_sr, Region.value, Except.map]

/-- C2 counterexample: with an ownership horizon of 0 years (every other
preference at its dataclass default, in particular a positive annual
distance), `calculate_tco` divides by `annual_km * years = 0` in
`cost_per_km` and raises `ZeroDivisionError` — the model returns
`Except.error ()`, so `calculate_tco` is not exception-free for all
preference values. -/
theorem calculate_tco_raises_on_zero_years :
    calculate_tco tesla_model_3_sr prefs_zero_years = Except.error () := by
  norm_num +decide [calculate_tco, calculate_incentive, pyStartsWith,
    pydiv, prefs_zero_years, tesla_model_3_sr, Region.value]

/-- C2 amended: whenever the ownership horizon is non-zero, `calculate_tco`
raises no exception (every division is then well-defined), and when the
annual distance is 0 the returned `cost_per_km` is exactly 0. -/
theorem calculate_tco_ok_of_years_ne_zero (v : Vehicle) (p : UserPreferences)
    (hy : p.ownership_years ≠ 0) :
    ∃ t, calculate_tco v p = Except.ok t ∧ (p.annual_km = 0 → t.cost_per_km = 0) := by
  have hyQ : ((p.ownership_years : ℚ)) ≠ 0 := Int.cast_ne_zero.mpr hy
  simp only [calculate_tco, pydiv]
  by_cases hk : p.annual_km > 0
  · have hd : ¬ p.annual_km * (p.ownership_years : ℚ) = 0 :=
      mul_ne_zero (ne_of_gt hk) hyQ
    rw [if_pos hk, if_neg hd, if_neg hyQ]
    exact ⟨_, rfl, fun h0 => absurd (h0 ▸ hk) (lt_irrefl 0)⟩
  · rw [if_neg hk, if_neg hyQ]
    exact ⟨_, rfl, fun _ => rfl⟩

/-- Witness for the C2 amended theorem: zero annual distance with the default
5-year horizon computes successfully and reports `cost_per_km = 0`. -/
theorem calculate_tco_ok_of_years_ne_zero_witness :
    (calculate_tco tesla_model_3_sr prefs_zero_km).isOk = true ∧
    (calculate_tco tesla_model_3_sr prefs_zero_km).map TCOResult.cost_per_km =
      Except.ok 0 := by
  obtain ⟨t, ht, hck⟩ :=
    calculate_tco_ok_of_years_ne_zero tesla_model_3_sr prefs_zero_km (by decide)
  rw [ht]
  exact ⟨rfl, by simp [Except.map, hck rfl]⟩

/-- C8: the §4.5 scenario (75 km commute, rare long trips, level-2 home
charging, no work charging, zero-emissions priority 3) scores EV 8 = 2+2+4
and PHEV 4 = 2+2, and since 8 > 4 + 3 the advisor answers "EV" with "High"
confidence. -/
theorem recommend_powertrain_advisor_case :
    (recommend_powertrain prefs_advisor_case).ev_score = 8 ∧
    (recommend_powertrain prefs_advisor_case).phev_score = 4 ∧
    (recommend_powertrain prefs_advisor_case).recommendation = "EV" ∧
    (recommend_powertrain prefs_advisor_case).confidence = "High" := by
  refine ⟨?_, ?_, ?_, ?_⟩ <;> norm_num +decide [recommend_powertrain, prefs_advisor_case]

/-- Preferences left entirely at the dataclass defaults. -/
def prefs_default : UserPreferences := {}

theorem range_score_nonneg (v : Vehicle) (p : UserPreferences) :
    0 ≤ range_score v p := by
  simp only [range_score]; split_ifs <;> norm_num

theorem charging_score_nonneg (v : Vehicle) : 0 ≤ charging_score v := by
  simp only [charging_score]; split_ifs <;> norm_num

theorem eff_score_nonneg (v : Vehicle) : 0 ≤ eff_score v := by
  simp only [eff_score]; split_ifs <;> norm_num

theorem accel_score_nonneg (v : Vehicle) : 0 ≤ accel_score v := by
  simp only [accel_score]; split_ifs <;> norm_num

theorem safety_score_nonneg (v : Vehicle) (h : 0 ≤ v.safety_rating_ncap.getD 5) :
    0 ≤ safety_score v := mul_nonneg h (by norm_num)

theorem reliability_score_x2_nonneg (v : Vehicle)
    (h : 0 ≤ v.reliability_score.getD 4) : 0 ≤ reliability_score_x2 v :=
  mul_nonneg h (by norm_num)

theorem cargo_score_nonneg (v : Vehicle) (p : UserPreferences) :
    0 ≤ cargo_score v p := by
  simp only [cargo_score]; split_ifs <;> norm_num

theorem tech_score_nonneg (v : Vehicle) : 0 ≤ tech_score v := by
  simp only [tech_score]
  refine le_min ?_ (by norm_num)
  split_ifs <;> norm_num

/-- C1: for every vehicle record whose (defaulted) safety and reliability
ratings are non-negative — the data model's rating invariant — and every
preferences value with non-negative priority weights — the documented 1–5
weight range — the reported `final_score` of `score_vehicle` lies in
[0, 100], including after the 5-point brand bonus and the final clamp. -/
theorem score_vehicle_final_score_in_range (v : Vehicle) (p : UserPreferences)
    (hsafe : 0 ≤ v.safety_rating_ncap.getD 5)
    (hrel : 0 ≤ v.reliability_score.getD 4)
    (hw1 : 0 ≤ p.range_priority) (hw2 : 0 ≤ p.charging_speed_priority)
    (hw3 : 0 ≤ p.efficiency_priority) (hw4 : 0 ≤ p.acceleration_priority)
    (hw5 : 0 ≤ p.safety_priority) (hw6 : 0 ≤ p.reliability_priority)
    (hw7 : 0 ≤ p.cargo_priority) (hw8 : 0 ≤ p.tech_features_priority) :
    0 ≤ (score_vehicle v p).final_score ∧ (score_vehicle v p).final_score ≤ 100 := by
  have c1 : (0:ℚ) ≤ (p.range_priority : ℚ) := by exact_mod_cast hw1
  have c2 : (0:ℚ) ≤ (p.charging_speed_priority : ℚ) := by exact_mod_cast hw2
  have c3 : (0:ℚ) ≤ (p.efficiency_priority : ℚ) := by exact_mod_cast hw3
  have c4 : (0:ℚ) ≤ (p.acceleration_priority : ℚ) := by exact_mod_cast hw4
  have c5 : (0:ℚ) ≤ (p.safety_priority : ℚ) := by exact_mod_cast hw5
  have c6 : (0:ℚ) ≤ (p.reliability_priority : ℚ) := by exact_mod_cast hw6
  have c7 : (0:ℚ) ≤ (p.cargo_priority : ℚ) := by exact_mod_cast hw7
  have c8 : (0:ℚ) ≤ (p.tech_features_priority : ℚ) := by exact_mod_cast hw8
  have htotal : (0:ℚ) ≤
      range_score v p * (p.range_priority : ℚ) +
      charging_score v * (p.charging_speed_priority : ℚ) +
      eff_score v * (p.efficiency_priority : ℚ) +
      accel_score v * (p.acceleration_priority : ℚ) +
      safety_score v * (p.safety_priority : ℚ) +
      reliability_score_x2 v * (p.reliability_priority : ℚ) +
      cargo_score v p * (p.cargo_priority : ℚ) +
      tech_score v * (p.tech_features_priority : ℚ) :=
    add_nonneg (add_nonneg (add_nonneg (add_nonneg (add_nonneg (add_nonneg
      (add_nonneg
        (mul_nonneg (range_score_nonneg v p) c1)
        (mul_nonneg (charging_score_nonneg v) c2))
        (mul_nonneg (eff_score_nonneg v) c3))
        (mul_nonneg (accel_score_nonneg v) c4))
        (mul_nonneg (safety_score_nonneg v hsafe) c5))
        (mul_nonneg (reliability_score_x2_nonneg v hrel) c6))
        (mul_nonneg (cargo_score_nonneg v p) c7))
        (mul_nonneg (tech_score_nonneg v) c8)
  have hbonus : (0:ℚ) ≤
      (if p.preferred_brands ≠ [] ∧ optMem v.brand p.preferred_brands
        then (5:ℚ) else 0) := by
    split_ifs <;> norm_num
  have hfs : (0:ℚ) ≤
      (if (p.range_priority * 10 + p.charging_speed_priority * 10 +
            p.efficiency_priority * 10 + p.acceleration_priority * 10 +
            p.safety_priority * 10 + p.reliability_priority * 10 +
            p.cargo_priority * 10 + p.tech_features_priority * 10 : ℤ) > 0
        then (range_score v p * (p.range_priority : ℚ) +
              charging_score v * (p.charging_speed_priority : ℚ) +
              eff_score v * (p.efficiency_priority : ℚ) +
              accel_score v * (p.acceleration_priority : ℚ) +
              safety_score v * (p.safety_priority : ℚ) +
              reliability_score_x2 v * (p.reliability_priority : ℚ) +
              cargo_score v p * (p.cargo_priority : ℚ) +
              tech_score v * (p.tech_features_priority : ℚ)) /
          ((p.range_priority * 10 + p.charging_speed_priority * 10 +
            p.efficiency_priority * 10 + p.acceleration_priority * 10 +
            p.safety_priority * 10 + p.reliability_priority * 10 +
            p.cargo_priority * 10 + p.tech_features_priority * 10 : ℤ) : ℚ) * 100
        else 0) := by
    split_ifs with hm
    · refine mul_nonneg (div_nonneg htotal ?_) (by norm_num)
      exact_mod_cast hm.le
    · exact le_refl 0
  constructor
  · simp only [score_vehicle]
    exact pyRound1_nonneg _ (le_min (add_nonneg hfs hbonus) (by norm_num))
  · simp only [score_vehicle]
    exact pyRound1_le_hundred _ (min_le_right _ _)

/-- Witness for the C1 theorem at the Tesla Model 3 SR record and the default
preferences. -/
theorem score_vehicle_final_score_in_range_witness :
    0 ≤ (score_vehicle tesla_model_3_sr prefs_default).final_score ∧
    (score_vehicle tesla_model_3_sr prefs_default).final_score ≤ 100 :=
  score_vehicle_final_score_in_range tesla_model_3_sr prefs_default
    (by norm_num [tesla_model_3_sr]) (by norm_num [tesla_model_3_sr])
    (by decide) (by decide) (by decide) (by decide)
    (by decide) (by decide) (by decide) (by decide)

/-- `optMem` is the expected membership test. -/
theorem optMem_true_iff (b : Option String) (l : List String) :
    optMem b l = true ↔ ∃ s, b = some s ∧ s ∈ l := by
  cases b with
  | none => simp [optMem]
  | some s => simp [optMem]

/-- `filter_vehicles` is `List.filter` with the per-vehicle decision. -/
theorem filter_vehicles_eq_filter (vs : List Vehicle) (p : UserPreferences) :
    filter_vehicles vs p = vs.filter (fun v => vehicle_kept p v) := by
  induction vs with
  | nil => rfl
  | cons v rest ih =>
    simp only [filter_vehicles, List.filter_cons]
    by_cases h : vehicle_kept p v = true
    · rw [if_pos h, if_pos h, ih]
    · rw [if_neg h, if_neg h, ih]

/-- A vehicle the filter keeps satisfies all seven hard constraints. -/
theorem vehicle_kept_sound (p : UserPreferences) (v : Vehicle)
    (h : vehicle_kept p v = true) :
    v.base_price.getD 0 ≤ p.max_budget * 1.1 ∧
    p.min_budget ≤ v.base_price.getD 0 ∧
    (∃ t, v.vehicle_type = some t ∧ t ∈ p.vehicle_types.map VehicleType.value) ∧
    (p.min_seats : ℚ) ≤ v.seats.getD 5 ∧
    (p.needs_awd = true → v.awd.getD false = true) ∧
    (p.needs_towing = true → (p.min_towing_kg : ℚ) ≤ v.towing_capacity_kg.getD 0) ∧
    (∀ b, v.brand = some b → b ∉ p.excluded_brands) := by
  simp only [vehicle_kept] at h
  split_ifs at h with h1 h2 h3 h4 h5 h6 h7
  all_goals first
    | exact (Bool.false_ne_true h).elim
    | · refine ⟨le_of_not_lt h1, le_of_not_lt h2, ?_, le_of_not_lt h4, ?_, ?_, ?_⟩
        · exact (optMem_true_iff _ _).mp h3
        · intro hA
          cases hB : v.awd.getD false with
          | false => exact absurd ⟨hA, hB⟩ h5
          | true => rfl
        · exact fun hT => le_of_not_lt (fun hlt => h6 ⟨hT, hlt⟩)
        · intro b hb hmem
          exact absurd ((optMem_true_iff _ _).mpr ⟨b, hb, hmem⟩) h7

/-- C3: `filter_vehicles` returns an order-preserving subsequence of the
catalog (hence no reordering and no duplication), and every vehicle it
returns simultaneously satisfies all the hard constraints: price within
`max_budget * 1.1` and at least `min_budget`, body type present and in the
requested set, seats at least the minimum, AWD present if required, towing
capacity sufficient if towing is required, and brand not excluded. -/
theorem filter_vehicles_subsequence_and_constraints
    (vehicles : List Vehicle) (preferences : UserPreferences) :
    List.Sublist (filter_vehicles vehicles preferences) vehicles ∧
    ∀ v, v ∈ filter_vehicles vehicles preferences →
      v.base_price.getD 0 ≤ preferences.max_budget * 1.1 ∧
      preferences.min_budget ≤ v.base_price.getD 0 ∧
      (∃ t, v.vehicle_type = some t ∧
        t ∈ preferences.vehicle_types.map VehicleType.value) ∧
      (preferences.min_seats : ℚ) ≤ v.seats.getD 5 ∧
      (preferences.needs_awd = true → v.awd.getD false = true) ∧
      (preferences.needs_towing = true →
        (preferences.min_towing_kg : ℚ) ≤ v.towing_capacity_kg.getD 0) ∧
      (∀ b, v.brand = some b → b ∉ preferences.excluded_brands) := by
  constructor
  · rw [filter_vehicles_eq_filter]
    exact List.filter_sublist vehicles
  · intro v hv
    rw [filter_vehicles_eq_filter] at hv
    exact vehicle_kept_sound preferences v (by simpa using (List.mem_filter.mp hv).2)

/-- Witness for the C3 theorem: on the one-element catalog `[tesla_model_3_sr]`
with default preferences the filter keeps the car, the result is a sublist,
and the kept car satisfies the seat constraint. -/
theorem filter_vehicles_subsequence_and_constraints_witness :
    List.Sublist (filter_vehicles [tesla_model_3_sr] prefs_default)
      [tesla_model_3_sr] ∧
    (prefs_default.min_seats : ℚ) ≤ tesla_model_3_sr.seats.getD 5 := by
  have hmem : tesla_model_3_sr ∈ filter_vehicles [tesla_model_3_sr] prefs_default := by
    have he : filter_vehicles [tesla_model_3_sr] prefs_default = [tesla_model_3_sr] := by
      norm_num +decide [filter_vehicles, vehicle_kept, optMem, prefs_default,
        tesla_model_3_sr, VehicleType.value]
    rw [he]
    exact List.mem_singleton.mpr rfl
  exact ⟨(filter_vehicles_subsequence_and_constraints [tesla_model_3_sr] prefs_default).1,
    ((filter_vehicles_subsequence_and_constraints [tesla_model_3_sr] prefs_default).2
      tesla_model_3_sr hmem).2.2.2.1⟩

/-- A compliant sedan used by the empty-body-type-set counterexample. -/
def v_plain_sedan : Vehicle :=
  { vehicle_type := some "sedan", base_price := some 30000, seats := some 5 }

/-- Preferences whose desired body-type set is empty. -/
def prefs_no_types : UserPreferences := { vehicle_types := [] }

/-- The same preferences with the single fallback default type `sedan`. -/
def prefs_sedan_only : UserPreferences := { vehicle_types := [VehicleType.sedan] }

/-- C7 counterexample: with an empty desired body-type set the filter drops a
sedan that the claimed fallback set `[sedan]` would keep — the filter does
not behave as if the empty set contained the fallback default type. -/
theorem filter_vehicles_empty_types_counterexample :
    filter_vehicles [v_plain_sedan] prefs_no_types = [] ∧
    filter_vehicles [v_plain_sedan] prefs_sedan_only = [v_plain_sedan] := by
  constructor <;>
    norm_num +decide [filter_vehicles, vehicle_kept, optMem, prefs_no_types,
      prefs_sedan_only, v_plain_sedan, VehicleType.value]

/-- With an empty desired body-type set, no vehicle survives the filter. -/
theorem vehicle_kept_false_of_empty_types (p : UserPreferences) (v : Vehicle)
    (h : p.vehicle_types = []) : vehicle_kept p v = false := by
  have hm : optMem v.vehicle_type ([] : List String) = false := by
    cases hvt : v.vehicle_type <;> simp [optMem]
  simp only [vehicle_kept, h, List.map_nil, hm]
  split_ifs <;> first | rfl | simp_all

/-- C7 amended: the filter does not raise on an empty body-type set, but it
returns the empty list (every vehicle is excluded); the fallback to the
single default type `sedan` happens upstream, where the page code builds
`UserPreferences` from the (possibly empty) multiselect. -/
theorem filter_vehicles_empty_types_returns_empty
    (vehicles : List Vehicle) (preferences : UserPreferences)
    (h : preferences.vehicle_types = []) :
    filter_vehicles vehicles preferences = [] := by
  induction vehicles with
  | nil => rfl
  | cons v rest ih =>
    simp [filter_vehicles, vehicle_kept_false_of_empty_types preferences v h, ih]

/-- Witness for the C7 amended theorem. -/
theorem filter_vehicles_empty_types_returns_empty_witness :
    filter_vehicles [v_plain_sedan] prefs_no_types = [] :=
  filter_vehicles_empty_types_returns_empty [v_plain_sedan] prefs_no_types rfl

/-- A record whose base price is 0 (key present). -/
def v_price_zero : Vehicle := { base_price := some 0 }

/-- A record whose base price is 40000 (key present). -/
def v_price_40k : Vehicle := { base_price := some 40000 }

/-- The annual-insurance clause of the spec, word for word (C6): the annual
insurance cost equals the region base premium (with the 1500 fallback) plus
a surcharge proportional — with one fixed constant of proportionality —
to the LIST price, i.e. base price plus the 1500 destination surcharge. -/
def insurance_linear_in_list_price : Prop :=
  ∃ c : ℚ, ∀ (v : Vehicle) (p : UserPreferences) (t : TCOResult),
    calculate_tco v p = Except.ok t →
    t.annual_insurance_cost =
      (region_insurance_map.lookup p.region.value).getD 1500 +
      c * (v.base_price.getD 0 + 1500)

/-- C6 counterexample: no single constant of proportionality against list
price reproduces `calculate_tco`'s insurance figures.  With default
preferences, a base price of 0 (list price 1500) yields surcharge 0, while a
base price of 40000 (list price 41500) yields surcharge 400 — the code's
surcharge is `base_price / 100`, not proportional to list price. -/
theorem insurance_not_linear_in_list_price : ¬ insurance_linear_in_list_price := by
  rintro ⟨c, hc⟩
  have e0 : (calculate_tco v_price_zero prefs_default).map TCOResult.annual_insurance_cost =
      Except.ok 1800 := by
    norm_num +decide [calculate_tco, calculate_incentive, pyStartsWith, pydiv,
      prefs_default, v_price_zero, Region.value, Except.map, List.lookup,
      region_insurance_map, get_incentives_data]
  have e4 : (calculate_tco v_price_40k prefs_default).map TCOResult.annual_insurance_cost =
      Except.ok 2200 := by
    norm_num +decide [calculate_tco, calculate_incentive, pyStartsWith, pydiv,
      prefs_default, v_price_40k, Region.value, Except.map, List.lookup,
      region_insurance_map, get_incentives_data]
  have hl : ((region_insurance_map.lookup prefs_default.region.value).getD 1500 : ℚ)
      = 1800 := by decide
  cases h0 : calculate_tco v_price_zero prefs_default with
  | error e => rw [h0] at e0; simp [Except.map] at e0
  | ok t0 =>
    cases h4 : calculate_tco v_price_40k prefs_default with
    | error e => rw [h4] at e4; simp [Except.map] at e4
    | ok t4 =>
      rw [h0] at e0
      rw [h4] at e4
      simp only [Except.map, Except.ok.injEq] at e0 e4
      have k0 := hc v_price_zero prefs_default t0 h0
      have k4 := hc v_price_40k prefs_default t4 h4
      rw [hl, e0] at k0
      rw [hl, e4] at k4
      simp only [v_price_zero, v_price_40k, Option.getD_some] at k0 k4
      linarith

/-- C6 amended: the annual insurance cost computed by `calculate_tco` equals
the region base premium (1500 fallback for a region key outside the table)
plus a surcharge of `base_price / 10000 * 100` — proportional to the BASE
price (defaulting to 40000 when absent), not to the list price. -/
theorem annual_insurance_cost_formula (v : Vehicle) (p : UserPreferences)
    (t : TCOResult) (h : calculate_tco v p = Except.ok t) :
    t.annual_insurance_cost =
      (region_insurance_map.lookup p.region.value).getD 1500 +
      v.base_price.getD 40000 / 10000 * 100 := by
  simp only [calculate_tco] at h
  split at h
  · injection h with h
    subst h
    rfl
  · exact absurd h (by simp)
  · exact absurd h (by simp)

/-- Witness for the C6 amended theorem: base price 40000 in `usa_federal`
gives annual insurance 1800 + 400 = 2200. -/
theorem annual_insurance_cost_formula_witness :
    (calculate_tco v_price_40k prefs_default).map TCOResult.annual_insurance_cost =
      Except.ok 2200 := by
  cases hE : calculate_tco v_price_40k prefs_default with
  | error e =>
    have hok : (calculate_tco v_price_40k prefs_default).isOk = true := by
      norm_num +decide [calculate_tco, calculate_incentive, pyStartsWith, pydiv,
        prefs_default, v_price_40k, Region.value, Except.isOk, Except.toBool,
        List.lookup, region_insurance_map, get_incentives_data]
    rw [hE] at hok
    simp [Except.isOk, Except.toBool] at hok
  | ok t =>
    have hf := annual_insurance_cost_formula v_price_40k prefs_default t hE
    have hl : ((region_insurance_map.lookup prefs_default.region.value).getD 1500 : ℚ)
        = 1800 := by decide
    simp only [Except.map, Except.ok.injEq]
    rw [hf, hl]
    norm_num [v_price_40k]

set_option maxHeartbeats 1000000 in
/-- C10 (implicit invariant): for every preferences value the advisor's two
scores sum to at least 4 (indeed the commute, long-trip and home-charging
rules each award at least 3 points in total), so the total is never zero,
the 50/50 default branch of the percentage computation is unreachable, and
both percentages are always computed from the actual scores. -/
theorem recommend_powertrain_scores_invariant (preferences : UserPreferences) :
    4 ≤ (recommend_powertrain preferences).ev_score +
        (recommend_powertrain preferences).phev_score ∧
    (recommend_powertrain preferences).ev_percentage =
      pyRound1 (((recommend_powertrain preferences).ev_score : ℚ) /
        (((recommend_powertrain preferences).ev_score : ℚ) +
         ((recommend_powertrain preferences).phev_score : ℚ)) * 100) ∧
    (recommend_powertrain preferences).phev_percentage =
      pyRound1 (((recommend_powertrain preferences).phev_score : ℚ) /
        (((recommend_powertrain preferences).ev_score : ℚ) +
         ((recommend_powertrain preferences).phev_score : ℚ)) * 100) := by
  simp only [recommend_powertrain]
  split_ifs <;> first | (norm_num; done) | (exfalso; norm_num at *)
